import Mathlib

/-!
Shallow embedding of the CHIP-8 interpreter of "CHIP-8 Emulator/main.cpp"
(struct Chip_8: ExecuteInst, RunCycle, and the frame pump of main).

Machine integers are modelled as Nat with explicit reductions modulo 2^8,
2^12 or 2^16 exactly where the C++ unsigned types wrap; the decoded field
`kk`, declared `int8_t` in the source, is modelled by sign extension into
Int (`sx8`).  The `std::vector` members (`mem`, `V`, `keys`, `callstack`,
`pixels`) are modelled as index functions; indexing a vector outside its
size, which is undefined behaviour in the C++, is modelled as a trapping
`Fault`, as is each `exit(1)` call of the source.  The `uniform_int_distribution`
draw used by Cxkk is passed to `ExecuteInst` as the argument `rnd`.
-/

/-- Pointwise update of a Nat-indexed store, modelling `vec[i] = val`. -/
def upd (f : Nat → Nat) (i v : Nat) : Nat → Nat :=
  fun j => if j = i then v else f j

/-- Result of storing an int value into a C `uint8_t` after the subtraction
`a - b` (two's-complement wraparound modulo 256). -/
def sub8 (a b : Nat) : Nat := (((a : Int) - (b : Int)) % 256).toNat

/-- Value of a byte reinterpreted as C `int8_t`: this is the type of the
decoded immediate `kk` in ExecuteInst (`int8_t kk = mem[PC + 1];`). -/
def sx8 (b : Nat) : Int := if b < 128 then (b : Int) else (b : Int) - 256

/-- Terminal faults of ExecuteInst: one constructor per `exit(1)` site of
the source, plus trapping constructors for out-of-range `std::vector`
indexing (undefined behaviour in the C++). -/
inductive Fault where
  /-- "Incorrect PC, instruction overflow" (PC at or beyond mem.size()). -/
  | badPC
  /-- "Incorrect jump address" (1nnn with nnn at or beyond mem.size()). -/
  | badJump
  /-- "Max recursion depth exceeded" (2nnn with SP at or beyond callstack.size()). -/
  | depthExceeded
  /-- Any "Invalid Opcode" exit of the dispatch switches. -/
  | invalidOpcode
  /-- "Invalid code" (Ex9E with V[x] greater than 15). -/
  | invalidKey
  /-- Out-of-range vector read (undefined behaviour in the source). -/
  | oobRead
  /-- Out-of-range vector write (undefined behaviour in the source). -/
  | oobWrite
  deriving DecidableEq

/-- Machine state of `struct Chip_8`.  The SDL window/texture handles and
the random engine are not part of the interpreter state proper and are
omitted; `keys` holds `true` for DOWN and `false` for UP. -/
structure Chip_8 where
  mem : Nat → Nat
  V : Nat → Nat
  keys : Nat → Bool
  VI : Nat
  soundTimer : Nat
  delayTimer : Nat
  PC : Nat
  SP : Nat
  callstack : Nat → Nat
  pixels : Nat → Nat

/-- Guarded read of `mem[a]` (mem.size() is 4096). -/
def rdMem (s : Chip_8) (a : Nat) : Except Fault Nat :=
  if a < 4096 then .ok (s.mem a) else .error .oobRead

/-- Guarded write of `mem[a] = v` (mem.size() is 4096). -/
def wrMem (s : Chip_8) (a v : Nat) : Except Fault Chip_8 :=
  if a < 4096 then .ok { s with mem := upd s.mem a v } else .error .oobWrite

/-- Guarded read of `callstack[i]` (callstack.size() is 16). -/
def rdStack (s : Chip_8) (i : Nat) : Except Fault Nat :=
  if i < 16 then .ok (s.callstack i) else .error .oobRead

/-- Guarded read of `keys[i]` (keys.size() is 16). -/
def rdKey (s : Chip_8) (i : Nat) : Except Fault Bool :=
  if i < 16 then .ok (s.keys i) else .error .oobRead

/-- Scan of the Fx0A loop `for (i = 0; i < keys.size(); ++i)` looking for
the first key held DOWN; `count` is the number of indices still to scan. -/
def scanKeys (k : Nat → Bool) : Nat → Nat → Option Nat
  | 0, _ => none
  | count + 1, i => if k i then some i else scanKeys k count (i + 1)

/-- First pressed key, if any (the Fx0A busy-wait test over 16 keys). -/
def firstKeyDown (k : Nat → Bool) : Option Nat :=
  scanKeys k 16 0

/-- One inner iteration of the Dxyn loops (`for (bit = 0; bit < 8; ++bit)`):
compute the wrapped target coordinates from the current register file,
set V[15] when the target pixel is on, then XOR the sprite bit in.
Note the source re-reads `V[x]` and `V[y]` on every iteration, after the
collision writes to `V[15]`. -/
def drawStep (x y r bit line : Nat) (s : Chip_8) : Chip_8 :=
  let ho := (bit + s.V x) % 64
  let vo := (r + s.V y) % 32
  let db := line / 2 ^ (7 - bit) % 2
  let idx := 64 * vo + ho
  let s1 := if s.pixels idx = 1 then { s with V := upd s.V 15 1 } else s
  { s1 with pixels := upd s1.pixels idx (s1.pixels idx ^^^ db) }

/-- The 8 bits of one sprite row, processed most-significant-bit first;
`count` is the number of bits still to process starting at index `bit`. -/
def drawBitsLoop (x y r line : Nat) : Nat → Nat → Chip_8 → Chip_8
  | 0, _, s => s
  | count + 1, bit, s => drawBitsLoop x y r line count (bit + 1) (drawStep x y r bit line s)

/-- The row loop of Dxyn (`for (spriteRow = 0; spriteRow < n; ++spriteRow)`):
read the next sprite byte from `mem[(VI & 0xFFF) + spriteRow]` and process
its 8 bits; `count` rows remain starting at row index `r`. -/
def drawLoop (x y : Nat) : Nat → Nat → Chip_8 → Except Fault Chip_8
  | 0, _, s => .ok s
  | count + 1, r, s =>
    match rdMem s (s.VI % 4096 + r) with
    | .error e => .error e
    | .ok line => drawLoop x y count (r + 1) (drawBitsLoop x y r line 8 0 s)

/-- Case 0xD of ExecuteInst: reset V[15], then run the row loop. -/
def drawSprite (x y n : Nat) (s : Chip_8) : Except Fault Chip_8 :=
  drawLoop x y n 0 { s with V := upd s.V 15 0 }

/-- The Fx55 loop `for (i = 0; i <= x; ++i) mem[VI + i] = V[i];`
(`count` iterations remain, current index `i`). -/
def stRegs : Chip_8 → Nat → Nat → Except Fault Chip_8
  | s, 0, _ => .ok s
  | s, count + 1, i =>
    match wrMem s (s.VI + i) (s.V i) with
    | .error e => .error e
    | .ok s1 => stRegs s1 count (i + 1)

/-- The Fx65 loop `for (i = 0; i <= x; ++i) V[i] = mem[VI + i];`. -/
def ldRegs : Chip_8 → Nat → Nat → Except Fault Chip_8
  | s, 0, _ => .ok s
  | s, count + 1, i =>
    match rdMem s (s.VI + i) with
    | .error e => .error e
    | .ok b => ldRegs { s with V := upd s.V i b } count (i + 1)

/-- Opcode 00E0: memset the pixel buffer to all zero. -/
def execCLS (s : Chip_8) : Except Fault Chip_8 :=
  .ok { s with pixels := fun _ => 0 }

/-- Opcode 00EE: `PC = callstack[--SP];` with a uint8_t SP (so SP = 0 wraps
to 255 and the read indexes past the 16-entry stack); the entries are
int16_t, read back into the uint16_t PC. -/
def execRET (s : Chip_8) : Except Fault Chip_8 :=
  let sp1 := (s.SP + 255) % 256
  match rdStack s sp1 with
  | .error e => .error e
  | .ok ret => .ok { s with PC := ret % 65536, SP := sp1 }

/-- Case 1 (1nnn): bounds-checked jump. -/
def exec1 (nnn : Nat) (s : Chip_8) : Except Fault Chip_8 :=
  if 4096 ≤ nnn then .error .badJump else .ok { s with PC := nnn }

/-- Case 2 (2nnn): depth test, push the post-advance PC, jump. -/
def exec2 (nnn : Nat) (s : Chip_8) : Except Fault Chip_8 :=
  if 16 ≤ s.SP then .error .depthExceeded
  else .ok { s with callstack := upd s.callstack s.SP s.PC,
                    SP := (s.SP + 1) % 256, PC := nnn }

/-- Case 3 (3xkk): `V[x] == kk` compares the uint8_t register with the
int8_t immediate, both promoted to int. -/
def exec3 (x b1 : Nat) (s : Chip_8) : Except Fault Chip_8 :=
  if (s.V x : Int) = sx8 b1 then .ok { s with PC := s.PC + 2 } else .ok s

/-- Case 4 (4xkk): skip on `V[x] != kk`, with the same int promotion. -/
def exec4 (x b1 : Nat) (s : Chip_8) : Except Fault Chip_8 :=
  if (s.V x : Int) ≠ sx8 b1 then .ok { s with PC := s.PC + 2 } else .ok s

/-- Case 5 (5xy0): skip on register equality. -/
def exec5 (x y : Nat) (s : Chip_8) : Except Fault Chip_8 :=
  if s.V x = s.V y then .ok { s with PC := s.PC + 2 } else .ok s

/-- Case 6 (6xkk): `V[x] = kk` (the int8_t stored into the uint8_t register
is the byte b1 again). -/
def exec6 (x b1 : Nat) (s : Chip_8) : Except Fault Chip_8 :=
  .ok { s with V := upd s.V x (b1 % 256) }

/-- Case 7 (7xkk): `V[x] += kk` with int promotion, stored modulo 256. -/
def exec7 (x b1 : Nat) (s : Chip_8) : Except Fault Chip_8 :=
  .ok { s with V := upd s.V x (((s.V x : Int) + sx8 b1) % 256).toNat }

/-- Case 8 (8xyv), sub-dispatched on the low nibble v.  In 8xy4 the flag is
written before `V[x] = result & 0xFF`; in 8xy5/8xy7 the flag is written
first and the subtraction then reads the register file that already holds
the flag (visible when x = 15 or y = 15). -/
def exec8 (v x y : Nat) (s : Chip_8) : Except Fault Chip_8 :=
  if v = 0 then .ok { s with V := upd s.V x (s.V y) }
  else if v = 1 then .ok { s with V := upd s.V x (s.V x ||| s.V y) }
  else if v = 2 then .ok { s with V := upd s.V x (s.V x &&& s.V y) }
  else if v = 3 then .ok { s with V := upd s.V x (s.V x ^^^ s.V y) }
  else if v = 4 then
    let result := s.V x + s.V y
    let V1 := upd s.V 15 (if 255 < result then 1 else 0)
    .ok { s with V := upd V1 x (result % 256) }
  else if v = 5 then
    let V1 := upd s.V 15 (if s.V y < s.V x then 1 else 0)
    .ok { s with V := upd V1 x (sub8 (V1 x) (V1 y)) }
  else if v = 6 then
    let V1 := upd s.V 15 (s.V x % 2)
    .ok { s with V := upd V1 x (V1 x / 2) }
  else if v = 7 then
    let V1 := upd s.V 15 (if s.V x < s.V y then 1 else 0)
    .ok { s with V := upd V1 x (sub8 (V1 y) (V1 x)) }
  else if v = 14 then
    let V1 := upd s.V 15 (s.V x / 128 % 2)
    .ok { s with V := upd V1 x (V1 x * 2 % 256) }
  else .error .invalidOpcode

/-- Case 9 (9xy0): skip on register inequality. -/
def exec9 (x y : Nat) (s : Chip_8) : Except Fault Chip_8 :=
  if s.V x ≠ s.V y then .ok { s with PC := s.PC + 2 } else .ok s

/-- Case 0xA (Annn). -/
def execA (nnn : Nat) (s : Chip_8) : Except Fault Chip_8 :=
  .ok { s with VI := nnn }

/-- Case 0xB (Bnnn). -/
def execB (nnn : Nat) (s : Chip_8) : Except Fault Chip_8 :=
  .ok { s with PC := (nnn + s.V 0) % 65536 }

/-- Case 0xC (Cxkk): `V[x] = randomSeed(randGen) & kk`, with the random
draw (a value in 0..255) passed in as rnd. -/
def execC (rnd x b1 : Nat) (s : Chip_8) : Except Fault Chip_8 :=
  .ok { s with V := upd s.V x ((rnd &&& b1) % 256) }

/-- Case 0xE (Ex9E / ExA1), sub-dispatched on b1.  Only the Ex9E branch
tests `V[x] > 15` before indexing the keypad; ExA1 indexes directly. -/
def execE (b1 x : Nat) (s : Chip_8) : Except Fault Chip_8 :=
  if b1 = 158 then
    if 15 < s.V x then .error .invalidKey
    else
      match rdKey s (s.V x) with
      | .error e => .error e
      | .ok k => if k then .ok { s with PC := s.PC + 2 } else .ok s
  else if b1 = 161 then
    match rdKey s (s.V x) with
    | .error e => .error e
    | .ok k => if k = false then .ok { s with PC := s.PC + 2 } else .ok s
  else .error .invalidOpcode

/-- Case 0xF, sub-dispatched on b1.  Note Fx1E performs `VI += V[x];` on
the full uint16_t with no 12-bit mask, and Fx29 is FONT_ADDRESS + V[x]*5. -/
def execF (b1 x : Nat) (s : Chip_8) : Except Fault Chip_8 :=
  if b1 = 7 then .ok { s with V := upd s.V x s.delayTimer }
  else if b1 = 10 then
    match firstKeyDown s.keys with
    | some i => .ok { s with V := upd s.V x i }
    | none => .ok { s with PC := s.PC - 2 }
  else if b1 = 21 then .ok { s with delayTimer := s.V x }
  else if b1 = 24 then .ok { s with soundTimer := s.V x }
  else if b1 = 30 then .ok { s with VI := (s.VI + s.V x) % 65536 }
  else if b1 = 41 then .ok { s with VI := (2 + s.V x * 5) % 65536 }
  else if b1 = 51 then
    match wrMem s (s.VI + 2) (s.V x % 10) with
    | .error e => .error e
    | .ok s1 =>
      match wrMem s1 (s1.VI + 1) (s.V x / 10 % 10) with
      | .error e => .error e
      | .ok s2 =>
        match wrMem s2 (s2.VI + 0) (s.V x / 10 / 10 % 10) with
        | .error e => .error e
        | .ok s3 => .ok s3
  else if b1 = 85 then stRegs s (x + 1) 0
  else if b1 = 101 then ldRegs s (x + 1) 0
  else .error .invalidOpcode

/-- Body of ExecuteInst after the fetch: `b0 = mem[PC]` and `b1 = mem[PC+1]`
are the two instruction bytes (always `< 256`, being `vector<ubyte>` entries,
so the big-endian combine `opcode = b0 << 8 | b1` is `b0 * 256 + b1`), and
`s` is the state after the default advance `PC += 2`.  The if-chain mirrors
the source's special-cased CLS/RET tests followed by the switch on the top
nibble u, each case delegated to its exec function above. -/
def execOp (rnd b0 b1 : Nat) (s : Chip_8) : Except Fault Chip_8 :=
  let opcode := b0 * 256 + b1
  let nnn := opcode % 4096
  let n := opcode % 16
  let x := b0 % 16
  let y := b1 / 16 % 16
  let u := b0 / 16 % 16
  let v := b1 % 16
  if opcode = 224 then execCLS s
  else if opcode = 238 then execRET s
  else if u = 1 then exec1 nnn s
  else if u = 2 then exec2 nnn s
  else if u = 3 then exec3 x b1 s
  else if u = 4 then exec4 x b1 s
  else if u = 5 then exec5 x y s
  else if u = 6 then exec6 x b1 s
  else if u = 7 then exec7 x b1 s
  else if u = 8 then exec8 v x y s
  else if u = 9 then exec9 x y s
  else if u = 10 then execA nnn s
  else if u = 11 then execB nnn s
  else if u = 12 then execC rnd x b1 s
  else if u = 13 then drawSprite x y n s
  else if u = 14 then execE b1 x s
  else if u = 15 then execF b1 x s
  else .error .invalidOpcode

/-- Chip_8::ExecuteInst: bounds test on PC, big-endian fetch of the two
instruction bytes, default advance `PC += 2`, then the dispatch.  Reading
`mem[PC + 1]` with PC = 4095 would index past the vector, hence the second
guard models that undefined access as a trap. -/
def ExecuteInst (rnd : Nat) (s : Chip_8) : Except Fault Chip_8 :=
  if 4096 ≤ s.PC then .error .badPC
  else if 4096 ≤ s.PC + 1 then .error .oobRead
  else execOp rnd (s.mem s.PC) (s.mem (s.PC + 1)) { s with PC := s.PC + 2 }

/-- Chip_8::RunCycle: one ExecuteInst, then decrement each nonzero timer. -/
def RunCycle (rnd : Nat) (s : Chip_8) : Except Fault Chip_8 :=
  match ExecuteInst rnd s with
  | .error e => .error e
  | .ok t =>
    .ok { t with delayTimer := if 0 < t.delayTimer then t.delayTimer - 1 else t.delayTimer,
                 soundTimer := if 0 < t.soundTimer then t.soundTimer - 1 else t.soundTimer }

/-- Iterated RunCycle, as called by the per-frame loop of main. -/
def runCycles (rnd : Nat) : Nat → Chip_8 → Except Fault Chip_8
  | 0, s => .ok s
  | count + 1, s =>
    match RunCycle rnd s with
    | .error e => .error e
    | .ok t => runCycles rnd count t

/-- One frame of the main loop: `for (int i = 0; i < clockSpeed; i += 2)
CPU->RunCycle();` with clockSpeed = 300, i.e. 150 RunCycle calls, after
which the display is rendered once. -/
def runFrame (rnd : Nat) (s : Chip_8) : Except Fault Chip_8 :=
  runCycles rnd 150 s

/-- Program counter of a non-faulted outcome. -/
def okPC : Except Fault Chip_8 → Option Nat
  | .ok t => some t.PC
  | .error _ => none

/-- Stack pointer of a non-faulted outcome. -/
def okSP : Except Fault Chip_8 → Option Nat
  | .ok t => some t.SP
  | .error _ => none

/-- Index register of a non-faulted outcome. -/
def okVI : Except Fault Chip_8 → Option Nat
  | .ok t => some t.VI
  | .error _ => none

/-- Delay timer of a non-faulted outcome. -/
def okDelay : Except Fault Chip_8 → Option Nat
  | .ok t => some t.delayTimer
  | .error _ => none

/-- Sound timer of a non-faulted outcome. -/
def okSound : Except Fault Chip_8 → Option Nat
  | .ok t => some t.soundTimer
  | .error _ => none

/-- Register V[i] of a non-faulted outcome. -/
def okV (e : Except Fault Chip_8) (i : Nat) : Option Nat :=
  match e with
  | .ok t => some (t.V i)
  | .error _ => none

/-- Pixel at buffer index p of a non-faulted outcome. -/
def okPixAt (e : Except Fault Chip_8) (p : Nat) : Option Nat :=
  match e with
  | .ok t => some (t.pixels p)
  | .error _ => none

/-- Memory byte at address a of a non-faulted outcome. -/
def okMemAt (e : Except Fault Chip_8) (a : Nat) : Option Nat :=
  match e with
  | .ok t => some (t.mem a)
  | .error _ => none

/-- Call stack entry i of a non-faulted outcome. -/
def okStackAt (e : Except Fault Chip_8) (i : Nat) : Option Nat :=
  match e with
  | .ok t => some (t.callstack i)
  | .error _ => none

/-- Whole register file of a non-faulted outcome. -/
def okRegsF : Except Fault Chip_8 → Option (Nat → Nat)
  | .ok t => some t.V
  | .error _ => none

/-- Whole memory of a non-faulted outcome. -/
def okMemF : Except Fault Chip_8 → Option (Nat → Nat)
  | .ok t => some t.mem
  | .error _ => none

/-- Whole pixel buffer of a non-faulted outcome. -/
def okPixF : Except Fault Chip_8 → Option (Nat → Nat)
  | .ok t => some t.pixels
  | .error _ => none

/-- Two consecutive ExecuteInst steps. -/
def step2 (rnd1 rnd2 : Nat) (s : Chip_8) : Except Fault Chip_8 :=
  match ExecuteInst rnd1 s with
  | .error e => .error e
  | .ok t => ExecuteInst rnd2 t

/-- Bit-plan of one machine state with everything zeroed and PC at the
program origin 0x200, used as the base of the concrete test states. -/
def zeroState : Chip_8 :=
  { mem := fun _ => 0, V := fun _ => 0, keys := fun _ => false, VI := 0,
    soundTimer := 0, delayTimer := 0, PC := 512, SP := 0,
    callstack := fun _ => 0, pixels := fun _ => 0 }

/-- State about to execute 3x kk with x = 0, kk = 0x80 and V[0] = 0x80. -/
def c1sEq : Chip_8 := { zeroState with
  mem := fun a => if a = 512 then 0x30 else if a = 513 then 0x80 else 0,
  V := fun i => if i = 0 then 0x80 else 0 }

/-- State about to execute 4x kk with x = 0, kk = 0x80 and V[0] = 0x80. -/
def c1sNe : Chip_8 := { zeroState with
  mem := fun a => if a = 512 then 0x40 else if a = 513 then 0x80 else 0,
  V := fun i => if i = 0 then 0x80 else 0 }

/-- State about to execute 8xy4 with x = 15, y = 0, V[15] = 1, V[0] = 1. -/
def c2cs : Chip_8 := { zeroState with
  mem := fun a => if a = 512 then 0x8F else if a = 513 then 0x04 else 0,
  V := fun i => if i = 15 then 1 else if i = 0 then 1 else 0 }

/-- State about to execute 8xy4 with x = 1, y = 2, V[1] = 200, V[2] = 100. -/
def c2ws : Chip_8 := { zeroState with
  mem := fun a => if a = 512 then 0x81 else if a = 513 then 0x24 else 0,
  V := fun i => if i = 1 then 200 else if i = 2 then 100 else 0 }

/-- State about to execute 8xy5 with x = 0, y = 15, V[0] = 5, V[15] = 3. -/
def c3cs : Chip_8 := { zeroState with
  mem := fun a => if a = 512 then 0x80 else if a = 513 then 0xF5 else 0,
  V := fun i => if i = 0 then 5 else if i = 15 then 3 else 0 }

/-- State about to execute 8xy5 with x = 1, y = 2, V[1] = 5, V[2] = 9. -/
def c3ws : Chip_8 := { zeroState with
  mem := fun a => if a = 512 then 0x81 else if a = 513 then 0x25 else 0,
  V := fun i => if i = 1 then 5 else if i = 2 then 9 else 0 }

/-- State about to execute 00EE with an empty call stack (SP = 0). -/
def c4retS : Chip_8 := { zeroState with
  mem := fun a => if a = 512 then 0x00 else if a = 513 then 0xEE else 0 }

/-- State about to execute 2nnn with a full call stack (SP = 16). -/
def c4callS : Chip_8 := { zeroState with
  mem := fun a => if a = 512 then 0x22 else if a = 513 then 0x00 else 0,
  SP := 16 }

/-- State about to execute Dxyn (x = y = 0, n = 1) with an all-zero sprite
byte at I = 768 and pixel (0, 0) already on. -/
def c5cs : Chip_8 := { zeroState with
  mem := fun a => if a = 512 then 0xD0 else if a = 513 then 0x01 else 0,
  VI := 768, pixels := fun p => if p = 0 then 1 else 0 }

/-- State whose memory is wall-to-wall 6xkk loads (byte 0x60 at every even
address) with the delay timer set to 150, the number of RunCycle calls in
one frame of the main loop. -/
def c6cs : Chip_8 := { zeroState with
  mem := fun a => if a % 2 = 0 then 0x60 else 0, delayTimer := 150 }

/-- State about to execute Fx1E with I = 0xFFF and V[0] = 1. -/
def c7cs : Chip_8 := { zeroState with
  mem := fun a => if a = 512 then 0xF0 else if a = 513 then 0x1E else 0,
  VI := 0xFFF, V := fun i => if i = 0 then 1 else 0 }

/-- State about to execute Fx1E with I = 100 and V[3] = 7. -/
def c7ws : Chip_8 := { zeroState with
  mem := fun a => if a = 512 then 0xF3 else if a = 513 then 0x1E else 0,
  VI := 100, V := fun i => if i = 3 then 7 else 0 }

/-- State about to execute ExA1 with V[0] = 16 (an invalid key index). -/
def c8a1S : Chip_8 := { zeroState with
  mem := fun a => if a = 512 then 0xE0 else if a = 513 then 0xA1 else 0,
  V := fun i => if i = 0 then 16 else 0 }

/-- State about to execute Ex9E with V[0] = 16 (an invalid key index). -/
def c8k9eS : Chip_8 := { zeroState with
  mem := fun a => if a = 512 then 0xE0 else if a = 513 then 0x9E else 0,
  V := fun i => if i = 0 then 16 else 0 }

/-- State about to execute DF01 (x = 15: the x coordinate is read from VF)
twice in a row, over an all-off display, with the sprite byte 0xC0 at
I = 768; V[15] is 0 before each of the two draws. -/
def c9cs : Chip_8 := { zeroState with
  mem := fun a => if a = 512 then 0xDF else if a = 513 then 0x01
    else if a = 514 then 0xDF else if a = 515 then 0x01
    else if a = 768 then 0xC0 else 0,
  VI := 768 }

/-- State about to execute D231 (x = 2, y = 3, n = 1) twice in a row, with
the sprite byte 0xC0 at I = 768 and one unrelated pixel already on. -/
def c9ws : Chip_8 := { zeroState with
  mem := fun a => if a = 512 then 0xD2 else if a = 513 then 0x31
    else if a = 514 then 0xD2 else if a = 515 then 0x31
    else if a = 768 then 0xC0 else 0,
  VI := 768,
  V := fun i => if i = 2 then 62 else if i = 3 then 30 else 0,
  pixels := fun p => if p = 77 then 1 else 0 }

/-- State about to execute 2nnn (nnn = 768) with SP = 3, where memory at
768 holds 00EE. -/
def c10ws : Chip_8 := { zeroState with
  mem := fun a => if a = 512 then 0x23 else if a = 513 then 0x00
    else if a = 768 then 0x00 else if a = 769 then 0xEE else 0,
  SP := 3, callstack := fun i => 100 + i }

/-- A pixel-buffer transcript of a draw: the list of (buffer index, sprite
bit) pairs XORed into the display, in execution order. -/
def applyOps : List (Nat × Nat) → (Nat → Nat) → Nat → Nat
  | [], P => P
  | (p, b) :: L, P => applyOps L (upd P p (P p ^^^ b))

/-- Accumulated XOR that a transcript contributes at buffer index q. -/
def maskOf : List (Nat × Nat) → Nat → Nat
  | [], _ => 0
  | (p, b) :: L, q => (if q = p then b else 0) ^^^ maskOf L q

/-- Transcript of one sprite row drawn at base coordinates (a, b): the
(index, bit) pairs of `count` bits starting at bit index `bit`. -/
def bitsOps (a b r line : Nat) : Nat → Nat → List (Nat × Nat)
  | 0, _ => []
  | count + 1, bit =>
    (64 * ((r + b) % 32) + ((bit + a) % 64), line / 2 ^ (7 - bit) % 2)
      :: bitsOps a b r line count (bit + 1)

/-- Transcript of `count` sprite rows starting at row `r`, reading the row
bytes from `memf` at offsets from `base`. -/
def rowsOps (memf : Nat → Nat) (base a b : Nat) : Nat → Nat → List (Nat × Nat)
  | 0, _ => []
  | count + 1, r =>
    bitsOps a b r (memf (base + r)) 8 0 ++ rowsOps memf base a b count (r + 1)

theorem upd_same (f : Nat → Nat) (i v : Nat) : upd f i v i = v := by
  simp [upd]

theorem upd_other (f : Nat → Nat) (i v j : Nat) (h : j ≠ i) : upd f i v j = f j := by
  simp [upd, h]

/-- Under the PC bounds checks, ExecuteInst is the fetch followed by execOp
on the PC-advanced state. -/
theorem executeInst_eq (rnd : Nat) (s : Chip_8) (h : s.PC + 1 < 4096) :
    ExecuteInst rnd s
      = execOp rnd (s.mem s.PC) (s.mem (s.PC + 1)) { s with PC := s.PC + 2 } := by
  unfold ExecuteInst
  rw [if_neg (by omega : ¬ 4096 ≤ s.PC), if_neg (by omega : ¬ 4096 ≤ s.PC + 1)]

/-- C1: with the high-bit immediate kk = 0x80 and V[0] = 0x80, the 3xkk
step does not skip (PC ends at 514 = PC + 2, where the claim requires
PC + 4), and the 4xkk step does skip (PC ends at 516, where the claim
requires PC + 2): the signed `int8_t kk` never compares equal to the
unsigned register byte once kk has the high bit set. -/
theorem c1_signed_immediate_eval :
    c1sEq.V 0 = 128 ∧ c1sEq.mem 513 = 128 ∧ c1sEq.PC = 512 ∧
    okPC (ExecuteInst 0 c1sEq) = some 514 ∧
    c1sNe.V 0 = 128 ∧ c1sNe.mem 513 = 128 ∧ c1sNe.PC = 512 ∧
    okPC (ExecuteInst 0 c1sNe) = some 516 := by
  decide

/-- C4: a 00EE with SP = 0 decrements the uint8_t stack pointer to 255 and
reads `callstack[255]`, past the 16-entry stack (modelled as the oobRead
trap) instead of raising a stack-underflow error; a 2nnn with SP = 16 does
stop with the "Max recursion depth exceeded" fault before writing. -/
theorem c4_stack_faults_eval :
    c4retS.SP = 0 ∧ ExecuteInst 0 c4retS = .error .oobRead ∧
    c4callS.SP = 16 ∧ ExecuteInst 0 c4callS = .error .depthExceeded :=
  ⟨rfl, rfl, rfl, rfl⟩

/-- C5: drawing the all-zero sprite byte over a lit pixel sets VF = 1: the
collision test `pixels[...] == 1` does not require the sprite bit to be 1,
while the claim requires VF = 0 after a draw whose sprite bits are all 0. -/
theorem c5_collision_flag_eval :
    c5cs.mem (c5cs.VI % 4096) = 0 ∧ c5cs.pixels 0 = 1 ∧
    okV (ExecuteInst 0 c5cs) 15 = some 1 := by
  decide

set_option maxRecDepth 4000 in
/-- C6: one frame of the main loop (150 RunCycle calls, none of whose
instructions is Fx15 or Fx18) drives the delay timer from 150 all the way
to 0, because RunCycle decrements the timers after every instruction; the
claim requires a decrease of exactly 1 per frame. -/
theorem c6_timer_frame_eval :
    c6cs.delayTimer = 150 ∧ okDelay (runFrame 0 c6cs) = some 0 := by
  decide

/-- C8: ExA1 with V[0] = 16 reads `keys[16]`, past the 16-entry keypad
(modelled as the oobRead trap), with no InvalidKeyIndex test before the
access; the sibling Ex9E branch does perform that test and faults with
the "Invalid code" error. -/
theorem c8_exa1_missing_check_eval :
    c8a1S.V 0 = 16 ∧ ExecuteInst 0 c8a1S = .error .oobRead ∧
    c8k9eS.V 0 = 16 ∧ ExecuteInst 0 c8k9eS = .error .invalidKey :=
  ⟨rfl, rfl, rfl, rfl⟩

/-- C2 counterexample: 8xy4 with x = 15, y = 0, V[15] = 1, V[0] = 1 leaves
VF = 2 (the sum), not the 0 the claim requires: `V[x] = result & 0xFF` is
written after the flag and overwrites it when x = 15. -/
theorem c2_counterexample :
    c2cs.V 15 = 1 ∧ c2cs.V 0 = 1 ∧
    okV (ExecuteInst 0 c2cs) 15 = some 2 ∧
    some (2 : Nat) ≠ some (if 255 < c2cs.V 15 + c2cs.V 0 then 1 else 0) := by
  decide

/-- C3 counterexample: 8xy5 with x = 0, y = 15, V[0] = 5, V[15] = 3 leaves
V[0] = 4, not (5 - 3) mod 256 = 2: the subtrahend `V[y]` is re-read after
the flag write, so with y = 15 it is the flag (1), not the old V[15]. -/
theorem c3_counterexample :
    c3cs.V 0 = 5 ∧ c3cs.V 15 = 3 ∧
    okV (ExecuteInst 0 c3cs) 0 = some 4 ∧
    some (4 : Nat) ≠ some ((c3cs.V 0 + 256 - c3cs.V 15) % 256) := by
  decide

/-- C7 counterexample: Fx1E with I = 0xFFF and V[0] = 1 stores 0x1000 in I:
the sum is not reduced modulo 4096 (the claim requires I = 0), and the
stored value exceeds 0xFFF. -/
theorem c7_counterexample :
    c7cs.VI = 4095 ∧ c7cs.V 0 = 1 ∧
    okVI (ExecuteInst 0 c7cs) = some 4096 ∧
    some (4096 : Nat) ≠ some ((c7cs.VI + c7cs.V 0) % 4096) ∧
    ¬ 4096 ≤ 4095 := by
  decide

/-- C9 counterexample: executing DF01 (coordinate register x = 15) twice
with V[15], V[0], I and the sprite byte equal at both draws does not
restore the display: pixel 1 stays on.  During the second draw the first
collision sets V[15] = 1, which shifts the x coordinate of the remaining
bits mid-draw. -/
theorem c9_counterexample :
    okV (ExecuteInst 0 c9cs) 15 = some (c9cs.V 15) ∧
    okV (ExecuteInst 0 c9cs) 0 = some (c9cs.V 0) ∧
    okVI (ExecuteInst 0 c9cs) = some c9cs.VI ∧
    okMemAt (ExecuteInst 0 c9cs) 768 = some (c9cs.mem 768) ∧
    okPixAt (step2 0 0 c9cs) 1 = some 1 ∧
    c9cs.pixels 1 = 0 := by
  decide

/-- C7 (amended): after Fx1E the index register holds (old I + V[x]) mod
65536 — the full 16-bit wrap of `VI += V[x];`, with no reduction modulo
4096 — and PC advances by 2. -/
theorem c7_fx1e_wraps16 (rnd x : Nat) (s : Chip_8) (hx : x < 16)
    (hpc : s.PC + 1 < 4096)
    (hb0 : s.mem s.PC = 240 + x) (hb1 : s.mem (s.PC + 1) = 30) :
    okVI (ExecuteInst rnd s) = some ((s.VI + s.V x) % 65536) ∧
    okPC (ExecuteInst rnd s) = some (s.PC + 2) := by
  have hrun : ExecuteInst rnd s
      = .ok { s with PC := s.PC + 2, VI := (s.VI + s.V x) % 65536 } := by
    rw [executeInst_eq rnd s hpc, hb0, hb1]
    dsimp only [execOp]
    rw [show (240 + x) % 16 = x from by omega,
        show (240 + x) / 16 % 16 = 15 from by omega,
        if_neg (by omega : ¬ (240 + x) * 256 + 30 = 224),
        if_neg (by omega : ¬ (240 + x) * 256 + 30 = 238)]
    norm_num [execF]
  rw [hrun]
  exact ⟨rfl, rfl⟩

/-- Witness for c7_fx1e_wraps16 at x = 3, I = 100, V[3] = 7. -/
theorem c7_fx1e_wraps16_witness :
    okVI (ExecuteInst 0 c7ws) = some ((c7ws.VI + c7ws.V 3) % 65536) ∧
    okPC (ExecuteInst 0 c7ws) = some (c7ws.PC + 2) :=
  c7_fx1e_wraps16 0 3 c7ws (by decide) (by decide) (by decide) (by decide)

/-- C2 (amended): after 8xy4, V[x] = (old V[x] + old V[y]) mod 256 for all
x, y; VF holds the carry flag whenever x is not 15, and the sum modulo 256
(the final write overwrites the flag) when x = 15. -/
theorem c2_add_flag_order (rnd x y : Nat) (s : Chip_8)
    (hx : x < 16) (hy : y < 16) (hpc : s.PC + 1 < 4096)
    (hb0 : s.mem s.PC = 128 + x) (hb1 : s.mem (s.PC + 1) = 16 * y + 4) :
    okV (ExecuteInst rnd s) x = some ((s.V x + s.V y) % 256) ∧
    okV (ExecuteInst rnd s) 15 =
      some (if x = 15 then (s.V x + s.V y) % 256
            else if 255 < s.V x + s.V y then 1 else 0) ∧
    okPC (ExecuteInst rnd s) = some (s.PC + 2) := by
  have hrun : ExecuteInst rnd s
      = .ok { s with
              PC := s.PC + 2,
              V := upd (upd s.V 15 (if 255 < s.V x + s.V y then 1 else 0)) x
                       ((s.V x + s.V y) % 256) } := by
    rw [executeInst_eq rnd s hpc, hb0, hb1]
    dsimp only [execOp]
    rw [show (128 + x) % 16 = x from by omega,
        show (128 + x) / 16 % 16 = 8 from by omega,
        show (16 * y + 4) / 16 % 16 = y from by omega,
        show (16 * y + 4) % 16 = 4 from by omega,
        if_neg (by omega : ¬ (128 + x) * 256 + (16 * y + 4) = 224),
        if_neg (by omega : ¬ (128 + x) * 256 + (16 * y + 4) = 238)]
    norm_num [exec8]
  rw [hrun]
  refine ⟨?_, ?_, rfl⟩
  · simp only [okV, upd_same]
  · simp only [okV]
    by_cases h15 : x = 15
    · subst h15
      simp [upd_same]
    · rw [upd_other _ _ _ _ (Ne.symm h15), upd_same, if_neg h15]

/-- Witness for c2_add_flag_order at x = 1, y = 2, V[1] = 200, V[2] = 100
(a carry case). -/
theorem c2_add_flag_order_witness :
    okV (ExecuteInst 0 c2ws) 1 = some ((c2ws.V 1 + c2ws.V 2) % 256) ∧
    okV (ExecuteInst 0 c2ws) 15 =
      some (if 1 = 15 then (c2ws.V 1 + c2ws.V 2) % 256
            else if 255 < c2ws.V 1 + c2ws.V 2 then 1 else 0) ∧
    okPC (ExecuteInst 0 c2ws) = some (c2ws.PC + 2) :=
  c2_add_flag_order 0 1 2 c2ws (by decide) (by decide) (by decide) (by decide)
    (by decide)

/-- C3 (amended): after 8xy5, with F the borrow flag computed from the old
registers (F = 1 iff old V[x] > old V[y]): VF = F whenever x is not 15, and
the operands of the subtraction are re-read after the flag write, so the
minuend is F when x = 15 and the subtrahend is F when y = 15. -/
theorem c3_sub_flag_order (rnd x y : Nat) (s : Chip_8)
    (hx : x < 16) (hy : y < 16) (hpc : s.PC + 1 < 4096)
    (hb0 : s.mem s.PC = 128 + x) (hb1 : s.mem (s.PC + 1) = 16 * y + 5) :
    okV (ExecuteInst rnd s) x =
      some (sub8 (if x = 15 then (if s.V y < s.V x then 1 else 0) else s.V x)
                 (if y = 15 then (if s.V y < s.V x then 1 else 0) else s.V y)) ∧
    okV (ExecuteInst rnd s) 15 =
      some (if x = 15
            then sub8 (if s.V y < s.V x then 1 else 0)
                      (if y = 15 then (if s.V y < s.V x then 1 else 0) else s.V y)
            else if s.V y < s.V x then 1 else 0) ∧
    okPC (ExecuteInst rnd s) = some (s.PC + 2) := by
  have hux : upd s.V 15 (if s.V y < s.V x then 1 else 0) x
      = if x = 15 then (if s.V y < s.V x then 1 else 0) else s.V x := by
    by_cases h : x = 15
    · subst h; rw [upd_same, if_pos rfl]
    · rw [upd_other _ _ _ _ h, if_neg h]
  have huy : upd s.V 15 (if s.V y < s.V x then 1 else 0) y
      = if y = 15 then (if s.V y < s.V x then 1 else 0) else s.V y := by
    by_cases h : y = 15
    · subst h; rw [upd_same, if_pos rfl]
    · rw [upd_other _ _ _ _ h, if_neg h]
  have hrun : ExecuteInst rnd s
      = .ok { s with
              PC := s.PC + 2,
              V := upd (upd s.V 15 (if s.V y < s.V x then 1 else 0)) x
                       (sub8 (upd s.V 15 (if s.V y < s.V x then 1 else 0) x)
                             (upd s.V 15 (if s.V y < s.V x then 1 else 0) y)) } := by
    rw [executeInst_eq rnd s hpc, hb0, hb1]
    dsimp only [execOp]
    rw [show (128 + x) % 16 = x from by omega,
        show (128 + x) / 16 % 16 = 8 from by omega,
        show (16 * y + 5) / 16 % 16 = y from by omega,
        show (16 * y + 5) % 16 = 5 from by omega,
        if_neg (by omega : ¬ (128 + x) * 256 + (16 * y + 5) = 224),
        if_neg (by omega : ¬ (128 + x) * 256 + (16 * y + 5) = 238)]
    norm_num [exec8]
  rw [hrun]
  refine ⟨?_, ?_, rfl⟩
  · simp only [okV, upd_same, hux, huy]
  · simp only [okV]
    by_cases h15 : x = 15
    · subst h15
      rw [upd_same, if_pos rfl, hux, huy, if_pos rfl]
    · rw [upd_other _ _ _ _ (Ne.symm h15), upd_same, if_neg h15]

/-- Witness for c3_sub_flag_order at x = 1, y = 2, V[1] = 5, V[2] = 9
(a borrow case). -/
theorem c3_sub_flag_order_witness :
    okV (ExecuteInst 0 c3ws) 1 =
      some (sub8 (if 1 = 15 then (if c3ws.V 2 < c3ws.V 1 then 1 else 0) else c3ws.V 1)
                 (if 2 = 15 then (if c3ws.V 2 < c3ws.V 1 then 1 else 0) else c3ws.V 2)) ∧
    okV (ExecuteInst 0 c3ws) 15 =
      some (if 1 = 15
            then sub8 (if c3ws.V 2 < c3ws.V 1 then 1 else 0)
                      (if 2 = 15 then (if c3ws.V 2 < c3ws.V 1 then 1 else 0) else c3ws.V 2)
            else if c3ws.V 2 < c3ws.V 1 then 1 else 0) ∧
    okPC (ExecuteInst 0 c3ws) = some (c3ws.PC + 2) :=
  c3_sub_flag_order 0 1 2 c3ws (by decide) (by decide) (by decide) (by decide)
    (by decide)

/-- C10: from any state with call-stack depth below 16, a call 2nnn pushes
the post-advance PC (call address + 2) into the slot at the old SP,
increments SP by 1 and jumps to nnn; a 00EE executed there pops that slot,
restoring PC to call address + 2 and SP to its pre-call value, and the
pair leaves the registers, index register, timers, memory and display
buffer unchanged. -/
theorem c10_call_ret_roundtrip (rnd1 rnd2 hi lo : Nat) (s : Chip_8)
    (hhi : hi < 16) (hlo : lo < 256) (hsp : s.SP < 16) (hpc : s.PC + 1 < 4096)
    (hb0 : s.mem s.PC = 32 + hi) (hb1 : s.mem (s.PC + 1) = lo)
    (hr0 : s.mem (256 * hi + lo) = 0) (hr1 : s.mem (256 * hi + lo + 1) = 238)
    (htgt : 256 * hi + lo + 1 < 4096) :
    okPC (ExecuteInst rnd1 s) = some (256 * hi + lo) ∧
    okSP (ExecuteInst rnd1 s) = some (s.SP + 1) ∧
    okStackAt (ExecuteInst rnd1 s) s.SP = some (s.PC + 2) ∧
    okPC (step2 rnd1 rnd2 s) = some (s.PC + 2) ∧
    okSP (step2 rnd1 rnd2 s) = some s.SP ∧
    okRegsF (step2 rnd1 rnd2 s) = some s.V ∧
    okVI (step2 rnd1 rnd2 s) = some s.VI ∧
    okDelay (step2 rnd1 rnd2 s) = some s.delayTimer ∧
    okSound (step2 rnd1 rnd2 s) = some s.soundTimer ∧
    okMemF (step2 rnd1 rnd2 s) = some s.mem ∧
    okPixF (step2 rnd1 rnd2 s) = some s.pixels := by
  have hone : ExecuteInst rnd1 s
      = .ok { s with
              callstack := upd s.callstack s.SP (s.PC + 2),
              SP := s.SP + 1, PC := 256 * hi + lo } := by
    rw [executeInst_eq rnd1 s hpc, hb0, hb1]
    dsimp only [execOp]
    rw [show (32 + hi) / 16 % 16 = 2 from by omega,
        show ((32 + hi) * 256 + lo) % 4096 = 256 * hi + lo from by omega,
        if_neg (by omega : ¬ (32 + hi) * 256 + lo = 224),
        if_neg (by omega : ¬ (32 + hi) * 256 + lo = 238)]
    norm_num [exec2]
    rw [if_neg (by omega : ¬ 16 ≤ s.SP),
        show (s.SP + 1) % 256 = s.SP + 1 from by omega]
  have htwo : ExecuteInst rnd2
        { s with
          callstack := upd s.callstack s.SP (s.PC + 2),
          SP := s.SP + 1, PC := 256 * hi + lo }
      = .ok { s with
              callstack := upd s.callstack s.SP (s.PC + 2),
              SP := s.SP, PC := s.PC + 2 } := by
    rw [executeInst_eq rnd2 _ (by dsimp only; omega)]
    dsimp only
    rw [hr0, hr1]
    dsimp only [execOp]
    norm_num [execRET, rdStack]
    rw [show (s.SP + 1 + 255) % 256 = s.SP from by omega,
        if_pos (by omega : s.SP < 16), upd_same]
    dsimp only
    rw [show (s.PC + 2) % 65536 = s.PC + 2 from by omega]
  have hstep : step2 rnd1 rnd2 s
      = .ok { s with
              callstack := upd s.callstack s.SP (s.PC + 2),
              SP := s.SP, PC := s.PC + 2 } := by
    unfold step2
    rw [hone]
    exact htwo
  rw [hone, hstep]
  refine ⟨rfl, rfl, ?_, rfl, rfl, rfl, rfl, rfl, rfl, rfl, rfl⟩
  simp only [okStackAt, upd_same]

/-- Witness for c10_call_ret_roundtrip: a call from 0x200 to 0x300 with
SP = 3, where 0x300 holds 00EE. -/
theorem c10_call_ret_roundtrip_witness :
    okPC (ExecuteInst 0 c10ws) = some (256 * 3 + 0) ∧
    okSP (ExecuteInst 0 c10ws) = some (c10ws.SP + 1) ∧
    okStackAt (ExecuteInst 0 c10ws) c10ws.SP = some (c10ws.PC + 2) ∧
    okPC (step2 0 0 c10ws) = some (c10ws.PC + 2) ∧
    okSP (step2 0 0 c10ws) = some c10ws.SP ∧
    okRegsF (step2 0 0 c10ws) = some c10ws.V ∧
    okVI (step2 0 0 c10ws) = some c10ws.VI ∧
    okDelay (step2 0 0 c10ws) = some c10ws.delayTimer ∧
    okSound (step2 0 0 c10ws) = some c10ws.soundTimer ∧
    okMemF (step2 0 0 c10ws) = some c10ws.mem ∧
    okPixF (step2 0 0 c10ws) = some c10ws.pixels :=
  c10_call_ret_roundtrip 0 0 3 0 c10ws (by decide) (by decide) (by decide)
    (by decide) (by decide) (by decide) (by decide) (by decide) (by decide)

theorem applyOps_append (L1 L2 : List (Nat × Nat)) (P : Nat → Nat) :
    applyOps (L1 ++ L2) P = applyOps L2 (applyOps L1 P) := by
  induction L1 generalizing P with
  | nil => rfl
  | cons hd tl ih =>
    obtain ⟨p, b⟩ := hd
    simp only [List.cons_append, applyOps]
    exact ih _

theorem applyOps_as_mask (L : List (Nat × Nat)) (P : Nat → Nat) (q : Nat) :
    applyOps L P q = P q ^^^ maskOf L q := by
  induction L generalizing P with
  | nil => rw [show maskOf [] q = 0 from rfl, Nat.xor_zero]; rfl
  | cons hd tl ih =>
    obtain ⟨p, b⟩ := hd
    simp only [applyOps, maskOf]
    rw [ih]
    by_cases h : q = p
    · subst h
      rw [upd_same, Nat.xor_assoc, if_pos rfl]
    · rw [upd_other _ _ _ _ h, if_neg h, Nat.zero_xor]

/-- XOR-ing the same transcript in twice restores the pixel buffer. -/
theorem applyOps_twice (L : List (Nat × Nat)) (P : Nat → Nat) :
    applyOps L (applyOps L P) = P := by
  funext q
  rw [applyOps_as_mask, applyOps_as_mask, Nat.xor_assoc, Nat.xor_self, Nat.xor_zero]

theorem drawStep_pixels (x y r bit line : Nat) (s : Chip_8) :
    (drawStep x y r bit line s).pixels
      = upd s.pixels (64 * ((r + s.V y) % 32) + ((bit + s.V x) % 64))
          (s.pixels (64 * ((r + s.V y) % 32) + ((bit + s.V x) % 64))
            ^^^ line / 2 ^ (7 - bit) % 2) := by
  dsimp only [drawStep]
  by_cases h : s.pixels (64 * ((r + s.V y) % 32) + ((bit + s.V x) % 64)) = 1 <;>
    simp [h]

theorem drawStep_V (x y r bit line : Nat) (s : Chip_8) (i : Nat) (hi : i ≠ 15) :
    (drawStep x y r bit line s).V i = s.V i := by
  dsimp only [drawStep]
  by_cases h : s.pixels (64 * ((r + s.V y) % 32) + ((bit + s.V x) % 64)) = 1 <;>
    simp [h, upd_other _ _ _ _ hi]

theorem drawStep_misc (x y r bit line : Nat) (s : Chip_8) :
    (drawStep x y r bit line s).mem = s.mem ∧
    (drawStep x y r bit line s).VI = s.VI ∧
    (drawStep x y r bit line s).PC = s.PC := by
  dsimp only [drawStep]
  by_cases h : s.pixels (64 * ((r + s.V y) % 32) + ((bit + s.V x) % 64)) = 1 <;>
    simp [h]

/-- When neither coordinate register is V[15], the bit loop XORs exactly
its transcript into the pixel buffer and preserves everything else (the
collision writes only touch V[15]). -/
theorem drawBitsLoop_spec (x y r line : Nat) (hx : x ≠ 15) (hy : y ≠ 15) :
    ∀ (count bit : Nat) (s : Chip_8),
      (drawBitsLoop x y r line count bit s).pixels
        = applyOps (bitsOps (s.V x) (s.V y) r line count bit) s.pixels ∧
      (∀ i, i ≠ 15 → (drawBitsLoop x y r line count bit s).V i = s.V i) ∧
      (drawBitsLoop x y r line count bit s).mem = s.mem ∧
      (drawBitsLoop x y r line count bit s).VI = s.VI ∧
      (drawBitsLoop x y r line count bit s).PC = s.PC := by
  intro count
  induction count with
  | zero =>
    intro bit s
    exact ⟨rfl, fun i _ => rfl, rfl, rfl, rfl⟩
  | succ k ih =>
    intro bit s
    obtain ⟨hm, hvi, hpc⟩ := drawStep_misc x y r bit line s
    obtain ⟨ihp, ihv, ihm, ihvi, ihpc⟩ := ih (bit + 1) (drawStep x y r bit line s)
    dsimp only [drawBitsLoop]
    refine ⟨?_, ?_, ?_, ?_, ?_⟩
    · rw [ihp, drawStep_V x y r bit line s x hx, drawStep_V x y r bit line s y hy,
          drawStep_pixels]
      dsimp only [bitsOps, applyOps]
    · intro i hi
      rw [ihv i hi, drawStep_V x y r bit line s i hi]
    · rw [ihm, hm]
    · rw [ihvi, hvi]
    · rw [ihpc, hpc]

/-- When neither coordinate register is V[15] and all the sprite rows lie
inside memory, the row loop succeeds and XORs exactly its transcript into
the pixel buffer, preserving mem, VI, PC and every register but V[15]. -/
theorem drawLoop_spec (x y : Nat) (hx : x ≠ 15) (hy : y ≠ 15) :
    ∀ (count r : Nat) (s : Chip_8), s.VI % 4096 + r + count ≤ 4096 →
      ∃ t, drawLoop x y count r s = .ok t ∧
        t.pixels
          = applyOps (rowsOps s.mem (s.VI % 4096) (s.V x) (s.V y) count r) s.pixels ∧
        (∀ i, i ≠ 15 → t.V i = s.V i) ∧
        t.mem = s.mem ∧ t.VI = s.VI ∧ t.PC = s.PC := by
  intro count
  induction count with
  | zero =>
    intro r s hbound
    exact ⟨s, rfl, rfl, fun i _ => rfl, rfl, rfl, rfl⟩
  | succ k ih =>
    intro r s hbound
    have hin : s.VI % 4096 + r < 4096 := by omega
    obtain ⟨hbp, hbv, hbm, hbvi, hbpc⟩ :=
      drawBitsLoop_spec x y r (s.mem (s.VI % 4096 + r)) hx hy 8 0 s
    obtain ⟨t, ht, htp, htv, htm, htvi, htpc⟩ :=
      ih (r + 1) (drawBitsLoop x y r (s.mem (s.VI % 4096 + r)) 8 0 s)
        (by rw [hbvi]; omega)
    refine ⟨t, ?_, ?_, ?_, ?_, ?_, ?_⟩
    · show drawLoop x y (k + 1) r s = .ok t
      dsimp only [drawLoop]
      simp only [rdMem, if_pos hin]
      exact ht
    · rw [htp, hbm, hbvi, hbv x hx, hbv y hy, hbp, ← applyOps_append]
      dsimp only [rowsOps]
    · intro i hi
      rw [htv i hi, hbv i hi]
    · rw [htm, hbm]
    · rw [htvi, hbvi]
    · rw [htpc, hbpc]

/-- The Dxyn case as a whole (flag reset plus row loop), for coordinate
registers other than V[15]: the resulting pixel buffer is the old one with
the sprite transcript XORed in, and mem, VI, PC, V[x], V[y] are unchanged. -/
theorem drawSprite_spec (x y n : Nat) (s : Chip_8) (hx : x ≠ 15) (hy : y ≠ 15)
    (hvi : s.VI % 4096 + n ≤ 4096) :
    ∃ t, drawSprite x y n s = .ok t ∧
      t.pixels = applyOps (rowsOps s.mem (s.VI % 4096) (s.V x) (s.V y) n 0) s.pixels ∧
      t.V x = s.V x ∧ t.V y = s.V y ∧ t.mem = s.mem ∧ t.VI = s.VI ∧ t.PC = s.PC := by
  obtain ⟨t, ht, htp, htv, htm, htvi, htpc⟩ :=
    drawLoop_spec x y hx hy n 0 { s with V := upd s.V 15 0 } (by dsimp only; omega)
  refine ⟨t, ht, ?_, ?_, ?_, htm, htvi, htpc⟩
  · rw [htp]
    dsimp only
    rw [upd_other _ _ _ _ hx, upd_other _ _ _ _ hy]
  · rw [htv x hx]
    exact upd_other _ _ _ _ hx
  · rw [htv y hy]
    exact upd_other _ _ _ _ hy

/-- A fetch whose bytes decode to Dxyn dispatches to drawSprite. -/
theorem exec_fetch_draw (rnd x y n : Nat) (w : Chip_8)
    (hx : x < 16) (hy : y < 16) (hn : n < 16) (hpc : w.PC + 1 < 4096)
    (hb0 : w.mem w.PC = 208 + x) (hb1 : w.mem (w.PC + 1) = 16 * y + n) :
    ExecuteInst rnd w = drawSprite x y n { w with PC := w.PC + 2 } := by
  rw [executeInst_eq rnd w hpc, hb0, hb1]
  dsimp only [execOp]
  rw [show (208 + x) % 16 = x from by omega,
      show (208 + x) / 16 % 16 = 13 from by omega,
      show (16 * y + n) / 16 % 16 = y from by omega,
      show ((208 + x) * 256 + (16 * y + n)) % 16 = n from by omega,
      if_neg (by omega : ¬ (208 + x) * 256 + (16 * y + n) = 224),
      if_neg (by omega : ¬ (208 + x) * 256 + (16 * y + n) = 238)]
  norm_num

/-- C9 (amended): executing the same Dxyn twice in succession — same
V[x], V[y], I and sprite bytes at both draws — restores the display
buffer exactly, for every sprite height, coordinate pair and prior buffer
contents, provided neither coordinate register is V[15] (when x = 15 or
y = 15 the mid-draw collision write to V[15] can shift the coordinates of
the second draw; see the counterexample). -/
theorem c9_draw_twice (rnd1 rnd2 x y n : Nat) (s : Chip_8)
    (hx : x < 16) (hx15 : x ≠ 15) (hy : y < 16) (hy15 : y ≠ 15) (hn : n < 16)
    (hpc : s.PC + 3 < 4096)
    (hb0 : s.mem s.PC = 208 + x) (hb1 : s.mem (s.PC + 1) = 16 * y + n)
    (hb2 : s.mem (s.PC + 2) = 208 + x) (hb3 : s.mem (s.PC + 3) = 16 * y + n)
    (hvi : s.VI % 4096 + n ≤ 4096) :
    okPixF (step2 rnd1 rnd2 s) = some s.pixels := by
  have e1 : ExecuteInst rnd1 s = drawSprite x y n { s with PC := s.PC + 2 } :=
    exec_fetch_draw rnd1 x y n s hx hy hn (by omega) hb0 hb1
  obtain ⟨t1, ht1, h1p, h1vx, h1vy, h1m, h1vi, h1pc⟩ :=
    drawSprite_spec x y n { s with PC := s.PC + 2 } hx15 hy15 (by dsimp only; omega)
  dsimp only at h1p h1vx h1vy h1m h1vi h1pc
  have hok1 : ExecuteInst rnd1 s = .ok t1 := e1.trans ht1
  have e2 : ExecuteInst rnd2 t1 = drawSprite x y n { t1 with PC := t1.PC + 2 } := by
    refine exec_fetch_draw rnd2 x y n t1 hx hy hn (by omega) ?_ ?_
    · rw [h1m, h1pc]
      exact hb2
    · rw [h1m, h1pc]
      exact hb3
  obtain ⟨t2, ht2, h2p, h2vx, h2vy, h2m, h2vi, h2pc⟩ :=
    drawSprite_spec x y n { t1 with PC := t1.PC + 2 } hx15 hy15
      (by dsimp only; omega)
  dsimp only at h2p
  have hok2 : ExecuteInst rnd2 t1 = .ok t2 := e2.trans ht2
  have hstep : step2 rnd1 rnd2 s = .ok t2 := by
    unfold step2
    rw [hok1]
    exact hok2
  rw [hstep]
  dsimp only [okPixF]
  rw [h2p, h1m, h1vi, h1vx, h1vy, h1p, applyOps_twice]

/-- Witness for c9_draw_twice: D231 executed twice at (V[2], V[3]) =
(62, 30) over a buffer with one unrelated pixel on. -/
theorem c9_draw_twice_witness :
    okPixF (step2 0 0 c9ws) = some c9ws.pixels :=
  c9_draw_twice 0 0 2 3 1 c9ws (by decide) (by decide) (by decide) (by decide)
    (by decide) (by decide) (by decide) (by decide) (by decide) (by decide)
    (by decide)
